import Mathlib

/-!
# Verification of the PyGame MIDI instrument core

Shallow embedding of the time-windowed MIDI event buffer, the MIDI file
exporter and the piano-roll renderer of the repository (files
`demo_0.py` and `demo_2_grid.py`), together with proofs settling the
specification's claims about them.

Timestamps and screen coordinates are modelled as rationals (the Python
floats carry exact values in all scenarios considered); MIDI note numbers
and velocities as integers, as in Python.
-/

/-- `MidiEvent` dataclass (both files): a note number, a velocity
(0 denotes note-off) and a timestamp in seconds. -/
structure MidiEvent where
  note : Int
  velocity : Int
  timestamp : ℚ
deriving DecidableEq, Repr

/-- State of `MidiBuffer` (`demo_2_grid.py`, lines 26-30): the deque of
events, the retention duration (default 30 s) and the creation instant
`start_time` recorded from the wall clock. -/
structure MidiBuffer where
  buffer : List MidiEvent
  buffer_duration : ℚ
  start_time : ℚ
deriving DecidableEq, Repr

/-- The eviction loop of `MidiBuffer.add_event` (`demo_2_grid.py`,
lines 36-39) and of `MidiPiano.handle_midi_event` (`demo_0.py`,
lines 58-61): pop events from the head while
`current_time - head.timestamp > duration`, `current_time` being fixed
for the whole loop. -/
def evictOld (current_time duration : ℚ) : List MidiEvent → List MidiEvent
  | [] => []
  | e :: rest =>
    if current_time - e.timestamp > duration then evictOld current_time duration rest
    else e :: rest

/-- `MidiBuffer.add_event` (`demo_2_grid.py`, lines 32-39): sample the
clock once (`now_abs` models the value returned by `time.time()`),
append the event at the tail, then evict stale events from the head. -/
def add_event (b : MidiBuffer) (now_abs : ℚ) (event : MidiEvent) : MidiBuffer :=
  let current_time := now_abs - b.start_time
  { b with buffer := evictOld current_time b.buffer_duration (b.buffer ++ [event]) }

/-- `MidiPiano.emit_midi_event` (`demo_2_grid.py`, lines 253-262) builds
the event handed to every handler (hence appended to the buffer) as
`MidiEvent(note, velocity, time.time())`: the timestamp is the absolute
wall-clock value, not the time elapsed since the buffer's creation. -/
def emit_midi_event (note velocity : Int) (now_abs : ℚ) : MidiEvent :=
  ⟨note, velocity, now_abs⟩

/-- The raw channel message sent by both emission paths
(`demo_2_grid.py`, lines 255-258; `demo_0.py`, lines 49-52):
`[0x90, note, velocity]` for velocity > 0, `[0x80, note, 0]` otherwise. -/
def midiMessage (note velocity : Int) : List Int :=
  if velocity > 0 then [0x90, note, velocity] else [0x80, note, 0]

/-- State of the `demo_0.py` piano that the claims touch: the recording
buffer and its creation instant `start_time` (lines 44-45). -/
structure PianoState where
  recording_buffer : List MidiEvent
  start_time : ℚ
deriving DecidableEq, Repr

/-- `MidiPiano.handle_midi_event` (`demo_0.py`, lines 47-61): send the
raw message, append `MidiEvent(note, velocity, time.time() - start_time)`
and evict events older than 30 s, with the clock sampled once. -/
def handle_midi_event (st : PianoState) (note velocity : Int) (now_abs : ℚ) :
    List Int × PianoState :=
  let current_time := now_abs - st.start_time
  let buf := st.recording_buffer ++ [⟨note, velocity, current_time⟩]
  (midiMessage note velocity,
   { st with recording_buffer := evictOld current_time 30 buf })

/-- One `midi.addNote(track, channel, pitch, time, duration, volume)`
call recorded by the exporters. -/
structure MidiNote where
  track : Int
  channel : Int
  pitch : Int
  time_beats : ℚ
  duration : ℚ
  volume : Int
deriving DecidableEq, Repr

/-- The MIDI file contents produced by an export: the tempo meta-event
(`midi.addTempo(0, 0, 120)`) and the list of notes added. -/
structure MidiFileData where
  tempo_track : Int
  tempo_time : ℚ
  tempo_bpm : Int
  notes : List MidiNote
deriving DecidableEq, Repr

/-- Failure modes of an export attempt: the empty-buffer early return
(no file is produced) and a file-write failure. -/
inductive SaveError where
  | emptyBuffer
  | ioError
deriving DecidableEq, Repr

/-- The note list built by `MidiBuffer.save_to_file` (`demo_2_grid.py`,
lines 52-55): the `if event.velocity > 0` guard is commented out in the
source, so every buffered event yields
`midi.addNote(0, 0, note, timestamp * 2, 0.5, velocity)`. -/
def save_to_file_notes (events : List MidiEvent) : List MidiNote :=
  events.map fun e => ⟨0, 0, e.note, e.timestamp * 2, 1/2, e.velocity⟩

/-- `MidiBuffer.save_to_file` (`demo_2_grid.py`, lines 41-59) with the
state threaded explicitly: on an empty buffer it prints and returns
without writing (modelled as `SaveError.emptyBuffer`); otherwise it
builds the file and writes it, a failing write raising an I/O error.
The second component is the buffer as the method leaves it. -/
def save_to_file (events : List MidiEvent) (writeOk : Bool) :
    Except SaveError MidiFileData × List MidiEvent :=
  if events.isEmpty then (Except.error SaveError.emptyBuffer, events)
  else if writeOk then
    (Except.ok ⟨0, 0, 120, save_to_file_notes events⟩, events)
  else (Except.error SaveError.ioError, events)

/-- The note list built by `MidiPiano.save_recording` (`demo_0.py`,
lines 72-76): only events with `velocity > 0` yield
`midi.addNote(0, 0, note, timestamp * 2, 0.5, velocity)`. -/
def save_recording_notes (events : List MidiEvent) : List MidiNote :=
  events.filterMap fun e =>
    if e.velocity > 0 then some ⟨0, 0, e.note, e.timestamp * 2, 1/2, e.velocity⟩
    else none

/-- `MidiPiano.save_recording` (`demo_0.py`, lines 63-80) with the state
threaded explicitly, as for `save_to_file`. -/
def save_recording (events : List MidiEvent) (writeOk : Bool) :
    Except SaveError MidiFileData × List MidiEvent :=
  if events.isEmpty then (Except.error SaveError.emptyBuffer, events)
  else if writeOk then
    (Except.ok ⟨0, 0, 120, save_recording_notes events⟩, events)
  else (Except.error SaveError.ioError, events)

/-- Buffer contents ordered by timestamp (the spec's append-only,
monotonically non-decreasing arrival order). -/
def TimeOrdered (l : List MidiEvent) : Prop :=
  l.Pairwise fun a b => a.timestamp ≤ b.timestamp

theorem evictOld_suffix (current_time duration : ℚ) (l : List MidiEvent) :
    evictOld current_time duration l <:+ l := by
  induction l with
  | nil => simp [evictOld]
  | cons e rest ih =>
    by_cases h : current_time - e.timestamp > duration
    · simp only [evictOld, if_pos h]
      exact ih.trans (List.suffix_cons e rest)
    · simp [evictOld, if_neg h]

theorem evictOld_fresh (current_time duration : ℚ) (l : List MidiEvent)
    (hl : TimeOrdered l) :
    ∀ e ∈ evictOld current_time duration l, current_time - e.timestamp ≤ duration := by
  induction l with
  | nil => simp [evictOld]
  | cons a rest ih =>
    rw [TimeOrdered, List.pairwise_cons] at hl
    by_cases h : current_time - a.timestamp > duration
    · simpa only [evictOld, if_pos h] using ih hl.2
    · simp only [evictOld, if_neg h]
      intro e he
      rcases List.mem_cons.mp he with rfl | hmem
      · exact le_of_not_lt h
      · have : a.timestamp ≤ e.timestamp := hl.1 e hmem
        have := sub_le_sub_left this current_time
        exact le_trans (le_trans this (le_refl _)) (le_of_not_lt h)

/-- A rectangle with rational coordinates (position of the top-left
corner, width and height), abstracting `pygame.Rect`. -/
structure Rect where
  x : ℚ
  y : ℚ
  w : ℚ
  h : ℚ
deriving DecidableEq, Repr

/-- An RGB color triple. -/
structure Color where
  r : Int
  g : Int
  b : Int
deriving DecidableEq, Repr

/-- A draw command issued by `MidiBuffer.render`: a filled rectangle
(`pygame.draw.rect`) or a line segment (`pygame.draw.line`). -/
inductive DrawCmd where
  | fillRect (color : Color) (rect : Rect)
  | line (color : Color) (x1 y1 x2 y2 : ℚ) (width : Int)
deriving DecidableEq, Repr

/-- The viewport rectangle handed to `render`. -/
structure Viewport where
  left : ℚ
  top : ℚ
  width : ℚ
  height : ℚ
deriving DecidableEq, Repr

/-- The `active_notes` dictionary of `render`: note number to
`(start_time, note_rectangle)`, in insertion order; assigning to an
existing key replaces its value in place, as a Python dict does. -/
def ActiveNotes : Type := List (Int × (ℚ × Rect))

/-- Assignment `active_notes[note] = entry`: replace in place when the
key is present, append otherwise (Python dict semantics). -/
def dictAssign (note : Int) (entry : ℚ × Rect) : ActiveNotes → ActiveNotes
  | [] => [(note, entry)]
  | (k, v) :: rest =>
    if k = note then (note, entry) :: rest else (k, v) :: dictAssign note entry rest

/-- Lookup `active_notes[note]` (with the `in` membership test). -/
def dictFind (note : Int) : ActiveNotes → Option (ℚ × Rect)
  | [] => none
  | (k, v) :: rest => if k = note then some v else dictFind note rest

/-- Deletion `del active_notes[note]`. -/
def dictDelete (note : Int) : ActiveNotes → ActiveNotes
  | [] => []
  | (k, v) :: rest =>
    if k = note then rest else (k, v) :: dictDelete note rest

/-- One step of the event walk of `MidiBuffer.render` (`demo_2_grid.py`,
lines 99-126) on the accumulated (closed-note draw commands,
active-note dictionary): skip events outside
`[window_start, window_end]`; a velocity > 0 event for a note in
`[45, 93]` opens (or overwrites) the active entry with a fresh
2-pixel-wide rectangle; a velocity = 0 event for an active note closes
it, drawing the rectangle widened to `max 1 (duration * time_scale)`
with color `(min 255 (velocity * 2), same, 255)`. -/
def renderStep (vp : Viewport) (window_start window_end time_scale note_scale : ℚ)
    (acc : List DrawCmd × ActiveNotes) (e : MidiEvent) : List DrawCmd × ActiveNotes :=
  if e.timestamp < window_start ∨ e.timestamp > window_end then acc
  else
    let event_x := vp.left + (e.timestamp - window_start) * time_scale
    if e.velocity > 0 then
      if 45 ≤ e.note ∧ e.note ≤ 93 then
        let note_y := vp.top + vp.height - ((e.note - 45 : Int) : ℚ) * note_scale
        (acc.1, dictAssign e.note (e.timestamp, ⟨event_x, note_y - 4, 2, 4⟩) acc.2)
      else acc
    else if e.velocity = 0 then
      match dictFind e.note acc.2 with
      | some (start_time, note_rect) =>
        let note_duration := e.timestamp - start_time
        let note_width := note_duration * time_scale
        let velocity_color := min 255 (e.velocity * 2)
        (acc.1 ++ [DrawCmd.fillRect ⟨velocity_color, velocity_color, 255⟩
            { note_rect with w := max 1 note_width }],
         dictDelete e.note acc.2)
      | none => acc
    else acc

/-- The full event walk: fold `renderStep` over the buffer in order. -/
def renderWalk (vp : Viewport) (window_start window_end time_scale note_scale : ℚ)
    (events : List MidiEvent) : List DrawCmd × ActiveNotes :=
  events.foldl (renderStep vp window_start window_end time_scale note_scale) ([], [])

/-- Output of `MidiBuffer.render` split by the phases of the source:
background fill, octave grid lines, closed-note rectangles drawn during
the walk, still-sounding rectangles drawn after it, and the playhead
line. The surface receives them in exactly this order. -/
structure RenderOutput where
  background : DrawCmd
  gridLines : List DrawCmd
  closedNotes : List DrawCmd
  stillSounding : List DrawCmd
  playhead : DrawCmd
deriving DecidableEq, Repr

/-- `MidiBuffer.render` (`demo_2_grid.py`, lines 61-142): fixed
10-second window ending at `current_relative_time`, note range 45-93
over the viewport height, background and five octave grid lines, the
event walk, still-active notes drawn with
`max 1 ((current_relative_time - start_time) * time_scale)` width in the
distinct color (100, 255, 100), and a red playhead at the right edge. -/
def render (vp : Viewport) (events : List MidiEvent) (current_relative_time : ℚ) :
    RenderOutput :=
  let time_window : ℚ := 10
  let window_start := current_relative_time - time_window
  let window_end := current_relative_time
  let time_scale := vp.width / time_window
  let note_scale := vp.height / 48
  let bottom := vp.top + vp.height
  let right := vp.left + vp.width
  let walk := renderWalk vp window_start window_end time_scale note_scale events
  { background := DrawCmd.fillRect ⟨20, 20, 20⟩ ⟨vp.left, vp.top, vp.width, vp.height⟩
    gridLines := (List.range 5).map fun octave =>
      let midi_note : Int := 45 + octave * 12
      let y_pos := bottom - ((midi_note - 45 : Int) : ℚ) * note_scale
      DrawCmd.line ⟨40, 40, 40⟩ vp.left y_pos right y_pos 1
    closedNotes := walk.1
    stillSounding := walk.2.map fun entry =>
      let note_duration := current_relative_time - entry.2.1
      DrawCmd.fillRect ⟨100, 255, 100⟩
        { entry.2.2 with w := max 1 (note_duration * time_scale) }
    playhead := DrawCmd.line ⟨255, 50, 50⟩ right vp.top right bottom 2 }

/-- Every closed-note draw command is a filled rectangle in color
(0, 0, 255). -/
def isBlueFill : DrawCmd → Bool
  | DrawCmd.fillRect c _ => decide (c = ⟨0, 0, 255⟩)
  | _ => false

theorem renderStep_blue (vp : Viewport) (ws we ts ns : ℚ)
    (acc : List DrawCmd × ActiveNotes) (e : MidiEvent)
    (h : acc.1.all isBlueFill = true) :
    ((renderStep vp ws we ts ns acc e).1).all isBlueFill = true := by
  unfold renderStep
  by_cases hw : e.timestamp < ws ∨ e.timestamp > we
  · simp only [if_pos hw]; exact h
  · simp only [if_neg hw]
    by_cases hp : e.velocity > 0
    · simp only [if_pos hp]
      by_cases hr : 45 ≤ e.note ∧ e.note ≤ 93
      · simp only [if_pos hr]; exact h
      · simp only [if_neg hr]; exact h
    · simp only [if_neg hp]
      by_cases hz : e.velocity = 0
      · simp only [if_pos hz]
        cases hfind : dictFind e.note acc.2 with
        | none => simp only [hfind]; exact h
        | some p =>
          obtain ⟨start_time, note_rect⟩ := p
          simp only [hfind, List.all_append, h, Bool.true_and, List.all_cons,
            List.all_nil, Bool.and_true, isBlueFill, hz]
          decide
      · simp only [if_neg hz]; exact h

theorem renderWalk_blue (vp : Viewport) (ws we ts ns : ℚ) (events : List MidiEvent)
    (acc : List DrawCmd × ActiveNotes) (h : acc.1.all isBlueFill = true) :
    ((events.foldl (renderStep vp ws we ts ns) acc).1).all isBlueFill = true := by
  induction events generalizing acc with
  | nil => exact h
  | cons e rest ih => exact ih _ (renderStep_blue vp ws we ts ns acc e h)

/-- C1: after every `add_event` call on a time-ordered buffer, every
retained event satisfies `now - event.timestamp ≤ D`, where
`now = now_abs - start_time` is sampled exactly once at the start of the
call; moreover eviction removes events only from the head (the result is
a suffix of the appended buffer) and time order is preserved, so the
property holds along every sequence of appends. -/
theorem add_event_retention_invariant (b : MidiBuffer) (now_abs : ℚ) (event : MidiEvent)
    (st : PianoState) (n v : Int) (hsorted : TimeOrdered (b.buffer ++ [event])) :
    (∀ e ∈ (add_event b now_abs event).buffer,
        now_abs - b.start_time - e.timestamp ≤ b.buffer_duration) ∧
    (add_event b now_abs event).buffer <:+ b.buffer ++ [event] ∧
    TimeOrdered (add_event b now_abs event).buffer ∧
    (handle_midi_event st n v now_abs).2.recording_buffer =
      (add_event ⟨st.recording_buffer, 30, st.start_time⟩ now_abs
        ⟨n, v, now_abs - st.start_time⟩).buffer := by
  refine ⟨evictOld_fresh _ _ _ hsorted, evictOld_suffix _ _ _, ?_, rfl⟩
  exact List.Pairwise.sublist (evictOld_suffix _ _ _).sublist hsorted

/-- Witness for C1 at a concrete input: buffer `[⟨60, 100, 1⟩]` with
`D = 30`, `start_time = 0`; appending `⟨61, 100, 40⟩` at `now_abs = 41`
evicts the stale head, and the retained appended event is fresh. -/
theorem add_event_retention_invariant_witness :
    (41 : ℚ) - 0 - (⟨61, 100, 40⟩ : MidiEvent).timestamp ≤ 30 :=
  (add_event_retention_invariant ⟨[⟨60, 100, 1⟩], 30, 0⟩ 41 ⟨61, 100, 40⟩
      ⟨[], 0⟩ 61 100 (by unfold TimeOrdered; simp [List.pairwise_cons])).1
    ⟨61, 100, 40⟩ (by simp [add_event, evictOld]; norm_num)

/-- C2: exporting an empty buffer fails with the empty-buffer error in
both exporters and produces no file data, whatever the outcome the file
write would have had. -/
theorem export_empty_buffer_fails (writeOk : Bool) :
    save_to_file [] writeOk = (Except.error SaveError.emptyBuffer, []) ∧
    save_recording [] writeOk = (Except.error SaveError.emptyBuffer, []) := by
  exact ⟨rfl, rfl⟩

/-- C9: both exporters leave the buffer's event sequence (and hence
every event's fields) unchanged, on success as well as on the
empty-buffer and file-write failure paths. -/
theorem export_preserves_buffer (events : List MidiEvent) (writeOk : Bool) :
    (save_to_file events writeOk).2 = events ∧
    (save_recording events writeOk).2 = events := by
  cases writeOk <;> by_cases h : events.isEmpty <;>
    simp [save_to_file, save_recording, h]

/-- C5: every buffered event with velocity > 0 contributes, in both
exporters, a note at beat position `timestamp * 2` with fixed duration
`0.5` beats, with no condition on any other (e.g. note-off) event in the
buffer. -/
theorem export_fixed_beat_duration (events : List MidiEvent) (e : MidiEvent)
    (hmem : e ∈ events) (hvel : 0 < e.velocity) :
    (⟨0, 0, e.note, e.timestamp * 2, 1/2, e.velocity⟩ : MidiNote) ∈
        save_to_file_notes events ∧
    (⟨0, 0, e.note, e.timestamp * 2, 1/2, e.velocity⟩ : MidiNote) ∈
        save_recording_notes events := by
  constructor
  · exact List.mem_map_of_mem _ hmem
  · simp only [save_recording_notes, List.mem_filterMap]
    exact ⟨e, hmem, by simp [hvel]⟩

/-- Witness for C5: the single note-on `⟨60, 100, 3⟩` exports as a note
at beat 6 with duration 0.5 in both exporters. -/
theorem export_fixed_beat_duration_witness :
    (⟨0, 0, 60, 3 * 2, 1/2, 100⟩ : MidiNote) ∈ save_to_file_notes [⟨60, 100, 3⟩] ∧
    (⟨0, 0, 60, 3 * 2, 1/2, 100⟩ : MidiNote) ∈ save_recording_notes [⟨60, 100, 3⟩] :=
  export_fixed_beat_duration [⟨60, 100, 3⟩] ⟨60, 100, 3⟩ (by simp) (by norm_num)

/-- C3 counterexample: the claim that every velocity-0 event is skipped
during export fails on `MidiBuffer.save_to_file` (`demo_2_grid.py`): its
`if event.velocity > 0` guard is commented out, so a buffer holding the
single note-off `⟨60, 0, 1⟩` exports a file containing one note (volume
0, beat 2, duration 0.5) instead of an empty track. -/
theorem velocity_zero_skipped_counterexample :
    (save_to_file [⟨60, 0, 1⟩] true).1 =
      Except.ok ⟨0, 0, 120, [⟨0, 0, 60, 2, 1/2, 0⟩]⟩ ∧
    save_to_file_notes [⟨60, 0, 1⟩] ≠ [] := by
  constructor
  · simp [save_to_file, save_to_file_notes]
  · simp [save_to_file_notes]

/-- C3 amended: the `demo_0.py` exporter emits notes only for events
with velocity > 0 (every exported note carries a positive volume, and a
velocity-0 event contributes nothing), while the `demo_2_grid.py`
exporter emits one note per buffered event regardless of velocity. -/
theorem export_velocity_filter (events : List MidiEvent) :
    (∀ n ∈ save_recording_notes events, 0 < n.volume) ∧
    save_recording_notes (events ++ [⟨60, 0, 1⟩]) = save_recording_notes events ∧
    (save_to_file_notes events).length = events.length := by
  refine ⟨?_, ?_, ?_⟩
  · intro n hn
    simp only [save_recording_notes, List.mem_filterMap] at hn
    obtain ⟨e, -, he⟩ := hn
    by_cases h : e.velocity > 0
    · rw [if_pos h] at he
      cases he
      exact h
    · rw [if_neg h] at he
      cases he
  · simp [save_recording_notes]
  · simp [save_to_file_notes]

/-- Witness for C3's amended statement: in the buffer
`[⟨62, 100, 2⟩, ⟨60, 0, 1⟩]` the `demo_0.py` exporter's single output
note has positive volume, appending a note-off changes nothing, and the
`demo_2_grid.py` exporter emits two notes. -/
theorem export_velocity_filter_witness :
    0 < (⟨0, 0, 62, 2 * 2, 1/2, 100⟩ : MidiNote).volume ∧
    save_recording_notes ([⟨62, 100, 2⟩] ++ [⟨60, 0, 1⟩]) =
      save_recording_notes [⟨62, 100, 2⟩] ∧
    (save_to_file_notes [⟨62, 100, 2⟩, ⟨60, 0, 1⟩]).length = 2 :=
  ⟨(export_velocity_filter [⟨62, 100, 2⟩]).1 ⟨0, 0, 62, 2 * 2, 1/2, 100⟩
      (by simp [save_recording_notes]),
   (export_velocity_filter [⟨62, 100, 2⟩]).2.1,
   (export_velocity_filter [⟨62, 100, 2⟩, ⟨60, 0, 1⟩]).2.2⟩

/-- C4: in `demo_2_grid.py` the emission call stamps events with the
absolute wall clock (`time.time()`), not `now - t0`: with
`start_time = 1000`, the event emitted at absolute time 1050 carries
timestamp 1050 rather than 50. As a consequence the buffer's relative
eviction clock never sees events as stale: the event emitted at
absolute time 1010 is still retained at time 1050, 40 s later, despite
`buffer_duration = 30`. `demo_0.py` stamps events with
`time.time() - start_time` as the claim states (last conjunct). -/
theorem emit_timestamp_epoch_mismatch :
    (emit_midi_event 60 100 1050).timestamp ≠ 1050 - 1000 ∧
    (add_event (add_event ⟨[], 30, 1000⟩ 1010 (emit_midi_event 60 100 1010)) 1050
        (emit_midi_event 61 100 1050)).buffer =
      [⟨60, 100, 1010⟩, ⟨61, 100, 1050⟩] ∧
    (handle_midi_event ⟨[], 1000⟩ 60 100 1010).2.recording_buffer =
      [⟨60, 100, 10⟩] := by
  refine ⟨?_, ?_, ?_⟩
  · simp [emit_midi_event]
    norm_num
  · norm_num [add_event, evictOld, emit_midi_event]
  · norm_num [handle_midi_event, evictOld]

/-- C6: for a buffer holding exactly a note-on for note 60 at t = 1 and
a note-off for note 60 at t = 1.5, rendering at `current_time = 5`
yields exactly one closed note rectangle — at note 60's row, with width
`max 1 (0.5 * time_scale)` where `time_scale = viewport.width / 10` —
and no still-sounding rectangle. -/
theorem render_closed_pair (vp : Viewport) :
    (render vp [⟨60, 100, 1⟩, ⟨60, 0, 3/2⟩] 5).closedNotes =
      [DrawCmd.fillRect ⟨0, 0, 255⟩
        ⟨vp.left + 6 * (vp.width / 10),
         vp.top + vp.height - 15 * (vp.height / 48) - 4,
         max 1 ((1/2) * (vp.width / 10)), 4⟩] ∧
    (render vp [⟨60, 100, 1⟩, ⟨60, 0, 3/2⟩] 5).stillSounding = [] := by
  constructor <;>
    norm_num [render, renderWalk, renderStep, dictAssign, dictFind, dictDelete]

/-- C7: for a buffer holding only a note-on for note 60 at t = 1 and no
note-off, rendering at `current_time = 3` yields no closed rectangle and
exactly one still-sounding rectangle, drawn in the distinct color
(100, 255, 100) with width `max 1 ((3 - 1) * time_scale)`. -/
theorem render_still_sounding (vp : Viewport) :
    (render vp [⟨60, 100, 1⟩] 3).closedNotes = [] ∧
    (render vp [⟨60, 100, 1⟩] 3).stillSounding =
      [DrawCmd.fillRect ⟨100, 255, 100⟩
        ⟨vp.left + 8 * (vp.width / 10),
         vp.top + vp.height - 15 * (vp.height / 48) - 4,
         max 1 (2 * (vp.width / 10)), 4⟩] := by
  constructor <;>
    norm_num [render, renderWalk, renderStep, dictAssign, dictFind, dictDelete]

/-- C8: two note-ons for note 60 at t = 1 and t = 1.2 with no
intervening note-off leave the active-note entry holding the second
timestamp 1.2 as the open start, and a note-off at t = 1.4 then closes a
rectangle of duration 0.2 — width `max 1 (0.2 * time_scale)` — not 0.4
(rendered at `current_time = 5`, window `[-5, 5]`). -/
theorem render_retrigger (vp : Viewport) :
    (renderWalk vp (-5) 5 (vp.width / 10) (vp.height / 48)
        [⟨60, 100, 1⟩, ⟨60, 100, 6/5⟩]).2 =
      [(60, (6/5, ⟨vp.left + (31/5) * (vp.width / 10),
          vp.top + vp.height - 15 * (vp.height / 48) - 4, 2, 4⟩))] ∧
    (render vp [⟨60, 100, 1⟩, ⟨60, 100, 6/5⟩, ⟨60, 0, 7/5⟩] 5).closedNotes =
      [DrawCmd.fillRect ⟨0, 0, 255⟩
        ⟨vp.left + (31/5) * (vp.width / 10),
         vp.top + vp.height - 15 * (vp.height / 48) - 4,
         max 1 ((1/5) * (vp.width / 10)), 4⟩] := by
  constructor <;>
    norm_num [render, renderWalk, renderStep, dictAssign, dictFind, dictDelete]

/-- C10: every closed note rectangle the renderer emits is a filled
rectangle in the constant color (0, 0, 255): it is drawn in the
`velocity == 0` branch, so the velocity-derived intensity
`min 255 (velocity * 2)` is always 0. -/
theorem render_closed_notes_blue (vp : Viewport) (events : List MidiEvent)
    (current_relative_time : ℚ) :
    ((render vp events current_relative_time).closedNotes).all isBlueFill = true := by
  exact renderWalk_blue vp _ _ _ _ events ([], []) rfl
